import Mathlib

/-
  Verification development for the Walkie-Talkie firmware
  (src/include/RotatoryEncoder.hpp and src/src/main.cpp).

  Shallow embedding conventions:
  * Machine time (millis) is modelled as a Nat supplied to each call; the
    several millis() reads inside one update invocation are modelled as the
    single instant now.
  * The unsigned wrap-around subtraction millis() - t is modelled as Nat
    subtraction (exact whenever time is monotone, as on hardware).
  * Radio driver results are modelled by an environment record giving the
    Int status code returned by each radio call an iteration can make.
  * Side effects (radio calls, Serial log lines, flag mutation, delay) are
    recorded in an event trace; the fatal busy-wait halt while(true) delay(10)
    is modelled as the absent result (none), after which a run emits nothing.
-/

set_option autoImplicit false

namespace WalkieTalkie

/-- Raw digital pin level, as read by digitalRead. -/
inductive Level
  | LOW
  | HIGH
  deriving DecidableEq, Repr

/-- enum SwitchState of RotatoryEncoder.hpp. -/
inductive SwitchState
  | PRESSED
  | HELD
  | RELEASED
  deriving DecidableEq, Repr

/-- State of the RotatoryEncoder object (fields of the C++ class). -/
structure RotatoryEncoder where
  switchPin : Nat
  debounceDelay : Nat
  holdTime : Nat
  previousState : SwitchState
  currentState : SwitchState
  lastReading : Level
  lastDebounceTime : Nat
  pressStartTime : Nat
  deriving DecidableEq, Repr

/-- The C++ constructor RotatoryEncoder(pin, debounceDelay, holdTime). -/
def RotatoryEncoder.make (switchPin debounceDelay holdTime : Nat) : RotatoryEncoder :=
  { switchPin := switchPin
    debounceDelay := debounceDelay
    holdTime := holdTime
    previousState := SwitchState.RELEASED
    currentState := SwitchState.RELEASED
    lastReading := Level.HIGH
    lastDebounceTime := 0
    pressStartTime := 0 }

/-- Debounce bookkeeping of update (lines 33-36 of RotatoryEncoder.hpp):
if the reading differs from the last one, reset the debounce timer to now;
always store the reading. -/
def RotatoryEncoder.debounced (e : RotatoryEncoder) (now : Nat) (reading : Level) :
    RotatoryEncoder :=
  if reading ≠ e.lastReading then
    { e with lastDebounceTime := now, lastReading := reading }
  else
    { e with lastReading := reading }

/-- Debounce-gated state transition of update (lines 38-50 of
RotatoryEncoder.hpp). -/
def RotatoryEncoder.transitionStep (e : RotatoryEncoder) (now : Nat) (reading : Level) :
    RotatoryEncoder :=
  if now - e.lastDebounceTime > e.debounceDelay then
    if reading = Level.LOW ∧ e.currentState = SwitchState.RELEASED then
      { e with currentState := SwitchState.PRESSED, pressStartTime := now }
    else if reading = Level.LOW ∧ e.currentState = SwitchState.PRESSED then
      if now - e.pressStartTime > e.holdTime then
        { e with currentState := SwitchState.HELD }
      else
        e
    else if reading = Level.HIGH ∧ e.currentState ≠ SwitchState.RELEASED then
      { e with currentState := SwitchState.RELEASED }
    else
      e
  else
    e

/-- RotatoryEncoder::update, with the raw digitalRead value passed in. -/
def RotatoryEncoder.update (e : RotatoryEncoder) (now : Nat) (reading : Level) :
    RotatoryEncoder :=
  (e.debounced now reading).transitionStep now reading

def RotatoryEncoder.isPressed (e : RotatoryEncoder) : Bool :=
  e.currentState = SwitchState.PRESSED

def RotatoryEncoder.isHeld (e : RotatoryEncoder) : Bool :=
  e.currentState = SwitchState.HELD

def RotatoryEncoder.isReleased (e : RotatoryEncoder) : Bool :=
  e.currentState = SwitchState.RELEASED

/-- RotatoryEncoder::wasPressed - returns the Bool result and the mutated
object (previousState is overwritten on every call). -/
def RotatoryEncoder.wasPressed (e : RotatoryEncoder) : Bool × RotatoryEncoder :=
  if e.currentState = SwitchState.PRESSED ∧ e.previousState ≠ SwitchState.PRESSED then
    (true, { e with previousState := SwitchState.PRESSED })
  else
    (false, { e with previousState := e.currentState })

/-- RotatoryEncoder::wasReleased. -/
def RotatoryEncoder.wasReleased (e : RotatoryEncoder) : Bool × RotatoryEncoder :=
  if e.currentState = SwitchState.RELEASED ∧ e.previousState ≠ SwitchState.RELEASED then
    (true, { e with previousState := SwitchState.RELEASED })
  else
    (false, { e with previousState := e.currentState })

/-- Feed a list of timestamped raw readings through update. -/
def RotatoryEncoder.runUpdates (e : RotatoryEncoder) : List (Nat × Level) → RotatoryEncoder
  | [] => e
  | (t, r) :: rest => RotatoryEncoder.runUpdates (e.update t r) rest

/-- Time of the most recent raw-level change in a trace of readings, given
the last observed level and debounce-timer value before it. -/
def lastChangeTime (lr : Level) (ldt : Nat) : List (Nat × Level) → Nat
  | [] => ldt
  | (t, r) :: rest => lastChangeTime r (if r ≠ lr then t else ldt) rest

/-- The usage discipline of main.cpp: one update followed by exactly one
wasPressed query per loop iteration; returns the wasPressed results. -/
def runCycle (e : RotatoryEncoder) : List (Nat × Level) → List Bool
  | [] => []
  | (t, r) :: rest =>
      let q := (e.update t r).wasPressed
      q.1 :: runCycle q.2 rest

/-- Signal list marking the update calls on which the debounced state
transitions into PRESSED. -/
def pressTransitionSignals (e : RotatoryEncoder) : List (Nat × Level) → List Bool
  | [] => []
  | (t, r) :: rest =>
      decide ((e.update t r).currentState = SwitchState.PRESSED ∧
              e.currentState ≠ SwitchState.PRESSED) ::
      pressTransitionSignals (e.update t r) rest

/-- An arbitrary interleaving of update calls and edge queries. -/
inductive EncAction
  | upd (now : Nat) (reading : Level)
  | queryPressed
  | queryReleased
  deriving DecidableEq, Repr

/-- Run a list of encoder actions; collects the Bool results of the edge
queries in order. -/
def runActions (e : RotatoryEncoder) : List EncAction → RotatoryEncoder × List Bool
  | [] => (e, [])
  | EncAction.upd t r :: rest => runActions (e.update t r) rest
  | EncAction.queryPressed :: rest =>
      let q := e.wasPressed
      let res := runActions q.2 rest
      (res.1, q.1 :: res.2)
  | EncAction.queryReleased :: rest =>
      let q := e.wasReleased
      let res := runActions q.2 rest
      (res.1, q.1 :: res.2)

/-- Number of transitions of the debounced currentState into PRESSED along
an action sequence (transitions into PRESSED happen only from RELEASED). -/
def countPressedTransitions (e : RotatoryEncoder) : List EncAction → Nat
  | [] => 0
  | EncAction.upd t r :: rest =>
      (if (e.update t r).currentState = SwitchState.PRESSED ∧
          e.currentState ≠ SwitchState.PRESSED then 1 else 0) +
      countPressedTransitions (e.update t r) rest
  | EncAction.queryPressed :: rest => countPressedTransitions (e.wasPressed).2 rest
  | EncAction.queryReleased :: rest => countPressedTransitions (e.wasReleased).2 rest

/-- True when no update call in the trace makes the debounced state
transition into RELEASED. -/
def noReleaseTransition (e : RotatoryEncoder) : List (Nat × Level) → Bool
  | [] => true
  | (t, r) :: rest =>
      (!(decide ((e.update t r).currentState = SwitchState.RELEASED ∧
                 e.currentState ≠ SwitchState.RELEASED))) &&
      noReleaseTransition (e.update t r) rest

/-- SWITCH_PIN of main.cpp. -/
def SWITCH_PIN : Nat := 4

/-- The global rotatoryEncoder object of main.cpp, constructed with the
default debounce window (50 ms) and hold threshold (1000 ms). -/
def rotatoryEncoder : RotatoryEncoder := RotatoryEncoder.make SWITCH_PIN 50 1000

/-- enum Mode of main.cpp. -/
inductive Mode
  | RECEIVE
  | TRANSMIT
  deriving DecidableEq, Repr

/-- RadioLib success status code. -/
def RADIOLIB_ERR_NONE : Int := 0

/-- RadioLib CRC-mismatch status code. -/
def RADIOLIB_ERR_CRC_MISMATCH : Int := -7

/-- The global mutable state of main.cpp (previousMode is declared but never
assigned or read after its initialization). -/
structure CtrlState where
  transmissionState : Int
  countReceivedPackets : Nat
  currentMode : Mode
  previousMode : Mode
  modeChanged : Bool
  receivedFlag : Bool
  transmittedFlag : Bool
  deriving DecidableEq, Repr

/-- Results the radio driver would return for each call one loop iteration
can make, together with the data of a pending packet. -/
structure RadioEnv where
  startReceiveResult : Int
  readDataResult : Int
  readDataStr : String
  rssi : Int
  lqi : Int
  rearmResult : Int
  startTransmitFirstResult : Int
  startTransmitNextResult : Int
  deriving DecidableEq, Repr

/-- Observable side effects of one handler call, in program order: radio
calls (with the result the driver returned), Serial log lines, event-flag
clearing, and the fixed pacing delay. -/
inductive Ev
  | callBegin (result : Int)
  | registerReceiveCallback
  | registerSentCallback
  | callStartReceive (result : Int)
  | callReadData (result : Int)
  | callStartTransmit (payload : String) (result : Int)
  | callFinishTransmit
  | clearReceivedFlag
  | clearTransmittedFlag
  | delayMs (n : Nat)
  | logInitStart
  | logInitSuccess
  | logInitFail (code : Int)
  | logListenStart
  | logListenSuccess
  | logListenFail (code : Int)
  | logReceivedPacket (data : String) (rssi : Int) (lqi : Int)
  | logCrcError
  | logReadFail (code : Int)
  | logTxFinished
  | logTxFail (code : Int)
  | logSendingFirst
  | logSendingAnother
  | logSwitched (m : Mode)
  deriving DecidableEq, Repr

/-- Whether an event is a radio call (startReceive, readData, startTransmit,
begin) returning a non-success status code. -/
def Ev.isFailedRadioCall : Ev → Bool
  | Ev.callBegin r => decide (r ≠ RADIOLIB_ERR_NONE)
  | Ev.callStartReceive r => decide (r ≠ RADIOLIB_ERR_NONE)
  | Ev.callReadData r => decide (r ≠ RADIOLIB_ERR_NONE)
  | Ev.callStartTransmit _ r => decide (r ≠ RADIOLIB_ERR_NONE)
  | _ => false

/-- Whether an event is a Serial log line reporting a failure. -/
def Ev.isFailureLog : Ev → Bool
  | Ev.logInitFail _ => true
  | Ev.logListenFail _ => true
  | Ev.logCrcError => true
  | Ev.logReadFail _ => true
  | Ev.logTxFail _ => true
  | _ => false

/-- The receivedFlag steady-state block of handleReceivedPacket
(lines 152-196 of main.cpp): consume the flag, read the packet, classify
and log the result, then unconditionally re-arm listening, discarding the
re-arm status. -/
def receiveFlagBody (s : CtrlState) (env : RadioEnv) : CtrlState × List Ev :=
  if s.receivedFlag then
    ({ s with receivedFlag := false },
      Ev.clearReceivedFlag :: Ev.callReadData env.readDataResult ::
        (if env.readDataResult = RADIOLIB_ERR_NONE then
          [Ev.logReceivedPacket env.readDataStr env.rssi env.lqi]
        else if env.readDataResult = RADIOLIB_ERR_CRC_MISMATCH then
          [Ev.logCrcError]
        else
          [Ev.logReadFail env.readDataResult]) ++
        [Ev.callStartReceive env.rearmResult])
  else
    (s, [])

/-- handleReceivedPacket of main.cpp (lines 138-197).  On a mode-change
iteration it first re-arms listening; a failure there is the fatal
while(true) busy loop, modelled as none. -/
def handleReceivedPacket (s : CtrlState) (env : RadioEnv) : Option CtrlState × List Ev :=
  if s.modeChanged then
    if env.startReceiveResult = RADIOLIB_ERR_NONE then
      let b := receiveFlagBody s env
      (some b.1,
        Ev.logListenStart :: Ev.callStartReceive env.startReceiveResult ::
          Ev.logListenSuccess :: b.2)
    else
      (none,
        [Ev.logListenStart, Ev.callStartReceive env.startReceiveResult,
         Ev.logListenFail env.startReceiveResult])
  else
    let b := receiveFlagBody s env
    (some b.1, b.2)

/-- The transmittedFlag steady-state block of handleSentPacket
(lines 220-255 of main.cpp): consume the flag, evaluate the currently
recorded transmissionState, finish the transmission, wait 1 s, then start
the next packet (payload carries the post-incremented counter) and record
its status. -/
def sentFlagBody (s : CtrlState) (env : RadioEnv) : CtrlState × List Ev :=
  if s.transmittedFlag then
    ({ s with
        transmittedFlag := false
        countReceivedPackets := s.countReceivedPackets + 1
        transmissionState := env.startTransmitNextResult },
      Ev.clearTransmittedFlag ::
        (if s.transmissionState = RADIOLIB_ERR_NONE then
          [Ev.logTxFinished]
        else
          [Ev.logTxFail s.transmissionState]) ++
        [Ev.callFinishTransmit, Ev.delayMs 1000, Ev.logSendingAnother,
         Ev.callStartTransmit ("Hello World! #" ++ toString s.countReceivedPackets)
           env.startTransmitNextResult])
  else
    (s, [])

/-- handleSentPacket of main.cpp (lines 199-256).  Note line 200: the
function begins by resetting transmissionState to RADIOLIB_ERR_NONE on
every call. -/
def handleSentPacket (s : CtrlState) (env : RadioEnv) : Option CtrlState × List Ev :=
  if s.modeChanged then
    let s1 := { s with transmissionState := env.startTransmitFirstResult }
    let b := sentFlagBody s1 env
    (some b.1,
      Ev.logSendingFirst ::
        Ev.callStartTransmit "Hello World!" env.startTransmitFirstResult :: b.2)
  else
    let s0 := { s with transmissionState := RADIOLIB_ERR_NONE }
    let b := sentFlagBody s0 env
    (some b.1, b.2)

/-- The ternary mode toggle of handleRotatoryEncoder (line 263). -/
def toggleMode : Mode → Mode
  | Mode.RECEIVE => Mode.TRANSMIT
  | Mode.TRANSMIT => Mode.RECEIVE

/-- The edge-triggered mode-switch block of handleRotatoryEncoder
(lines 262-269): on a press edge, toggle currentMode, set modeChanged and
log; otherwise clear modeChanged. -/
def modeSwitchStep (c : CtrlState) (pressed : Bool) : CtrlState × List Ev :=
  if pressed then
    ({ c with currentMode := toggleMode c.currentMode, modeChanged := true },
      [Ev.logSwitched (toggleMode c.currentMode)])
  else
    ({ c with modeChanged := false }, [])

/-- Combined state of the sketch: the encoder object and the globals. -/
structure SysState where
  enc : RotatoryEncoder
  ctrl : CtrlState
  deriving DecidableEq, Repr

/-- The function-pointer dispatch of handleRotatoryEncoder (lines 271-272):
run the handler matching the current mode. -/
def dispatchMode (c : CtrlState) (env : RadioEnv) : Option CtrlState × List Ev :=
  if c.currentMode = Mode.RECEIVE then handleReceivedPacket c env
  else handleSentPacket c env

/-- handleRotatoryEncoder of main.cpp (lines 258-273): update the encoder,
query wasPressed once, toggle the mode on a press edge, then dispatch to
the handler of the (possibly new) current mode. -/
def handleRotatoryEncoder (s : SysState) (now : Nat) (reading : Level) (env : RadioEnv) :
    Option SysState × List Ev :=
  let pr := (s.enc.update now reading).wasPressed
  let sw := modeSwitchStep s.ctrl pr.1
  let res := dispatchMode sw.1 env
  (res.1.map (fun c => { enc := pr.2, ctrl := c }), sw.2 ++ res.2)

/-- Values of the globals of main.cpp after elaboration, before setup. -/
def initialCtrlState : CtrlState :=
  { transmissionState := RADIOLIB_ERR_NONE
    countReceivedPackets := 0
    currentMode := Mode.RECEIVE
    previousMode := Mode.RECEIVE
    modeChanged := false
    receivedFlag := false
    transmittedFlag := false }

/-- setup of main.cpp (lines 105-136): radio begin, callback registration,
initial startReceive; a failure of begin or of the initial startReceive is
the fatal busy loop, modelled as none. -/
def setup (beginResult startReceiveResult : Int) : Option CtrlState × List Ev :=
  if beginResult = RADIOLIB_ERR_NONE then
    if startReceiveResult = RADIOLIB_ERR_NONE then
      (some initialCtrlState,
        [Ev.logInitStart, Ev.callBegin beginResult, Ev.logInitSuccess,
         Ev.registerReceiveCallback, Ev.registerSentCallback,
         Ev.logListenStart, Ev.callStartReceive startReceiveResult,
         Ev.logListenSuccess])
    else
      (none,
        [Ev.logInitStart, Ev.callBegin beginResult, Ev.logInitSuccess,
         Ev.registerReceiveCallback, Ev.registerSentCallback,
         Ev.logListenStart, Ev.callStartReceive startReceiveResult,
         Ev.logListenFail startReceiveResult])
  else
    (none, [Ev.logInitStart, Ev.callBegin beginResult, Ev.logInitFail beginResult])

/-- Inputs of one main-loop iteration: the time, the raw switch reading and
the radio-driver responses. -/
structure IterInput where
  now : Nat
  reading : Level
  env : RadioEnv
  deriving DecidableEq, Repr

/-- Run the main loop over a list of per-iteration inputs.  Once an
iteration halts fatally, no further iteration runs and no further event is
emitted. -/
def loopRun (s : SysState) : List IterInput → Option SysState × List Ev
  | [] => (some s, [])
  | i :: rest =>
      match handleRotatoryEncoder s i.now i.reading i.env with
      | (none, tr) => (none, tr)
      | (some s2, tr) =>
          let res := loopRun s2 rest
          (res.1, tr ++ res.2)

/-- The interrupt callback setReceiveFlag of main.cpp: its only action is
setting receivedFlag. -/
def setReceiveFlag (c : CtrlState) : CtrlState :=
  { c with receivedFlag := true }

/-- The interrupt callback setSentFlag of main.cpp: its only action is
setting transmittedFlag. -/
def setSentFlag (c : CtrlState) : CtrlState :=
  { c with transmittedFlag := true }

/-- Events the whole system can undergo: the two interrupts, or one main
loop iteration. -/
inductive SysEvent
  | irqReceived
  | irqSent
  | loopIter (now : Nat) (reading : Level) (env : RadioEnv)
  deriving DecidableEq, Repr

/-- One step of the whole system. -/
def sysStep : SysEvent → SysState → Option SysState × List Ev
  | SysEvent.irqReceived, s => (some { s with ctrl := setReceiveFlag s.ctrl }, [])
  | SysEvent.irqSent, s => (some { s with ctrl := setSentFlag s.ctrl }, [])
  | SysEvent.loopIter now reading env, s => handleRotatoryEncoder s now reading env

/-- A default radio environment in which every call succeeds. -/
def envOk : RadioEnv :=
  { startReceiveResult := RADIOLIB_ERR_NONE
    readDataResult := RADIOLIB_ERR_NONE
    readDataStr := ""
    rssi := 0
    lqi := 0
    rearmResult := RADIOLIB_ERR_NONE
    startTransmitFirstResult := RADIOLIB_ERR_NONE
    startTransmitNextResult := RADIOLIB_ERR_NONE }

/-- A pin-reading trace with a 40 ms raw HIGH bounce (200 ms .. 210 ms)
while the debounced state is PRESSED (press registered at 160 ms). -/
def bounceWhilePressedInputs : List (Nat × Level) :=
  [(100, Level.LOW), (160, Level.LOW), (200, Level.HIGH), (210, Level.LOW), (1300, Level.LOW)]

/-- Press, debounced release, second press, then two wasPressed queries. -/
def doublePressActs : List EncAction :=
  [EncAction.upd 100 Level.LOW, EncAction.upd 160 Level.LOW, EncAction.upd 300 Level.HIGH,
   EncAction.upd 400 Level.HIGH, EncAction.upd 500 Level.LOW, EncAction.upd 600 Level.LOW,
   EncAction.queryPressed, EncAction.queryPressed]

/-- A TRANSMIT steady state in which the previous startTransmit recorded a
failure status (-1) and the sent interrupt has fired. -/
def txFailedPendingState : CtrlState :=
  { transmissionState := -1
    countReceivedPackets := 5
    currentMode := Mode.TRANSMIT
    previousMode := Mode.RECEIVE
    modeChanged := false
    receivedFlag := false
    transmittedFlag := true }

/-- A RECEIVE steady state with a pending received packet. -/
def rxPendingState : CtrlState :=
  { initialCtrlState with receivedFlag := true }

/-- Environment in which readData succeeds but the unconditional re-arm
startReceive fails with code -2. -/
def rearmFailEnv : RadioEnv :=
  { envOk with rearmResult := -2, readDataStr := "hi", rssi := -42, lqi := 3 }

/-- Environment delivering a packet "hi"; every call succeeds. -/
def rxOkEnv : RadioEnv :=
  { envOk with readDataStr := "hi", rssi := -42, lqi := 3 }

/-- Encoder state one stable-LOW update away from a press edge. -/
def aboutToPressEnc : RotatoryEncoder :=
  { rotatoryEncoder with
      currentState := SwitchState.PRESSED
      lastReading := Level.LOW
      lastDebounceTime := 0
      pressStartTime := 100 }

/-- System state in TRANSMIT mode with a press edge about to be detected
and a received packet still pending from before. -/
def toggleWithPendingRx : SysState :=
  { enc := aboutToPressEnc
    ctrl := { initialCtrlState with currentMode := Mode.TRANSMIT, receivedFlag := true } }

/- ------------------------------------------------------------------ -/
/- Helper lemmas about the debounced switch monitor.                   -/
/- ------------------------------------------------------------------ -/

theorem debounced_currentState (e : RotatoryEncoder) (t : Nat) (r : Level) :
    (e.debounced t r).currentState = e.currentState := by
  unfold RotatoryEncoder.debounced; split <;> rfl

theorem debounced_previousState (e : RotatoryEncoder) (t : Nat) (r : Level) :
    (e.debounced t r).previousState = e.previousState := by
  unfold RotatoryEncoder.debounced; split <;> rfl

theorem debounced_pressStartTime (e : RotatoryEncoder) (t : Nat) (r : Level) :
    (e.debounced t r).pressStartTime = e.pressStartTime := by
  unfold RotatoryEncoder.debounced; split <;> rfl

theorem debounced_debounceDelay (e : RotatoryEncoder) (t : Nat) (r : Level) :
    (e.debounced t r).debounceDelay = e.debounceDelay := by
  unfold RotatoryEncoder.debounced; split <;> rfl

theorem debounced_holdTime (e : RotatoryEncoder) (t : Nat) (r : Level) :
    (e.debounced t r).holdTime = e.holdTime := by
  unfold RotatoryEncoder.debounced; split <;> rfl

theorem debounced_lastReading (e : RotatoryEncoder) (t : Nat) (r : Level) :
    (e.debounced t r).lastReading = r := by
  unfold RotatoryEncoder.debounced; split <;> rfl

theorem debounced_lastDebounceTime (e : RotatoryEncoder) (t : Nat) (r : Level) :
    (e.debounced t r).lastDebounceTime =
      if r ≠ e.lastReading then t else e.lastDebounceTime := by
  unfold RotatoryEncoder.debounced; split <;> simp_all

theorem transitionStep_previousState (e : RotatoryEncoder) (t : Nat) (r : Level) :
    (e.transitionStep t r).previousState = e.previousState := by
  unfold RotatoryEncoder.transitionStep; split_ifs <;> rfl

theorem transitionStep_lastReading (e : RotatoryEncoder) (t : Nat) (r : Level) :
    (e.transitionStep t r).lastReading = e.lastReading := by
  unfold RotatoryEncoder.transitionStep; split_ifs <;> rfl

theorem transitionStep_lastDebounceTime (e : RotatoryEncoder) (t : Nat) (r : Level) :
    (e.transitionStep t r).lastDebounceTime = e.lastDebounceTime := by
  unfold RotatoryEncoder.transitionStep; split_ifs <;> rfl

theorem transitionStep_debounceDelay (e : RotatoryEncoder) (t : Nat) (r : Level) :
    (e.transitionStep t r).debounceDelay = e.debounceDelay := by
  unfold RotatoryEncoder.transitionStep; split_ifs <;> rfl

theorem transitionStep_holdTime (e : RotatoryEncoder) (t : Nat) (r : Level) :
    (e.transitionStep t r).holdTime = e.holdTime := by
  unfold RotatoryEncoder.transitionStep; split_ifs <;> rfl

theorem transitionStep_of_guard_false (e : RotatoryEncoder) (t : Nat) (r : Level)
    (h : ¬ (t - e.lastDebounceTime > e.debounceDelay)) :
    e.transitionStep t r = e := by
  unfold RotatoryEncoder.transitionStep; simp [h]

theorem transitionStep_change_guard (e : RotatoryEncoder) (t : Nat) (r : Level)
    (h : (e.transitionStep t r).currentState ≠ e.currentState) :
    t - e.lastDebounceTime > e.debounceDelay := by
  by_contra hg
  exact h (by rw [transitionStep_of_guard_false e t r hg])

theorem update_previousState (e : RotatoryEncoder) (t : Nat) (r : Level) :
    (e.update t r).previousState = e.previousState := by
  unfold RotatoryEncoder.update
  rw [transitionStep_previousState, debounced_previousState]

theorem update_lastReading (e : RotatoryEncoder) (t : Nat) (r : Level) :
    (e.update t r).lastReading = r := by
  unfold RotatoryEncoder.update
  rw [transitionStep_lastReading, debounced_lastReading]

theorem update_lastDebounceTime (e : RotatoryEncoder) (t : Nat) (r : Level) :
    (e.update t r).lastDebounceTime =
      if r ≠ e.lastReading then t else e.lastDebounceTime := by
  unfold RotatoryEncoder.update
  rw [transitionStep_lastDebounceTime, debounced_lastDebounceTime]

theorem update_debounceDelay (e : RotatoryEncoder) (t : Nat) (r : Level) :
    (e.update t r).debounceDelay = e.debounceDelay := by
  unfold RotatoryEncoder.update
  rw [transitionStep_debounceDelay, debounced_debounceDelay]

theorem update_holdTime (e : RotatoryEncoder) (t : Nat) (r : Level) :
    (e.update t r).holdTime = e.holdTime := by
  unfold RotatoryEncoder.update
  rw [transitionStep_holdTime, debounced_holdTime]

/-- A raw-level change resets the debounce timer to now and cannot change
the debounced state on the same call. -/
theorem update_of_reading_change (e : RotatoryEncoder) (t : Nat) (r : Level)
    (h : r ≠ e.lastReading) :
    (e.update t r).lastDebounceTime = t ∧
    (e.update t r).currentState = e.currentState := by
  constructor
  · rw [update_lastDebounceTime]; simp [h]
  · unfold RotatoryEncoder.update
    have hldt : (e.debounced t r).lastDebounceTime = t := by
      rw [debounced_lastDebounceTime]; simp [h]
    have hg : ¬ (t - (e.debounced t r).lastDebounceTime >
        (e.debounced t r).debounceDelay) := by
      rw [hldt]; simp
    rw [transitionStep_of_guard_false _ t r hg, debounced_currentState]

/-- The debounced state changes on an update call only when the reading is
unchanged and the debounce window has strictly elapsed since the last
raw-level change. -/
theorem update_change_stable (e : RotatoryEncoder) (t : Nat) (r : Level)
    (h : (e.update t r).currentState ≠ e.currentState) :
    r = e.lastReading ∧ t - e.lastDebounceTime > e.debounceDelay := by
  by_cases hr : r = e.lastReading
  · refine ⟨hr, ?_⟩
    unfold RotatoryEncoder.update at h
    have h2 : ((e.debounced t r).transitionStep t r).currentState ≠
        (e.debounced t r).currentState := by
      rw [debounced_currentState]; exact h
    have := transitionStep_change_guard (e.debounced t r) t r h2
    rwa [debounced_lastDebounceTime, debounced_debounceDelay, if_neg (by simp [hr])] at this
  · exact absurd (update_of_reading_change e t r hr).2 h

theorem transitionStep_HELD_not_PRESSED (e : RotatoryEncoder) (t : Nat) (r : Level)
    (h : e.currentState = SwitchState.HELD) :
    (e.transitionStep t r).currentState ≠ SwitchState.PRESSED := by
  unfold RotatoryEncoder.transitionStep
  split_ifs <;> simp_all

/-- There is no direct HELD to PRESSED transition. -/
theorem update_HELD_not_PRESSED (e : RotatoryEncoder) (t : Nat) (r : Level)
    (h : e.currentState = SwitchState.HELD) :
    (e.update t r).currentState ≠ SwitchState.PRESSED := by
  unfold RotatoryEncoder.update
  exact transitionStep_HELD_not_PRESSED _ t r (by rw [debounced_currentState]; exact h)

/-- The debounced state enters PRESSED only from RELEASED. -/
theorem update_into_PRESSED (e : RotatoryEncoder) (t : Nat) (r : Level)
    (h : (e.update t r).currentState = SwitchState.PRESSED)
    (hne : e.currentState ≠ SwitchState.PRESSED) :
    e.currentState = SwitchState.RELEASED := by
  cases hc : e.currentState with
  | PRESSED => exact absurd hc hne
  | HELD => exact absurd h (update_HELD_not_PRESSED e t r hc)
  | RELEASED => rfl

theorem transitionStep_into_HELD (e : RotatoryEncoder) (t : Nat) (r : Level)
    (h : (e.transitionStep t r).currentState = SwitchState.HELD) :
    e.currentState = SwitchState.PRESSED ∨ e.currentState = SwitchState.HELD := by
  unfold RotatoryEncoder.transitionStep at h
  split_ifs at h <;> simp_all

/-- The debounced state enters HELD only from PRESSED (or stays HELD). -/
theorem update_into_HELD (e : RotatoryEncoder) (t : Nat) (r : Level)
    (h : (e.update t r).currentState = SwitchState.HELD) :
    e.currentState = SwitchState.PRESSED ∨ e.currentState = SwitchState.HELD := by
  unfold RotatoryEncoder.update at h
  have := transitionStep_into_HELD _ t r h
  rwa [debounced_currentState] at this

theorem transitionStep_LOW_no_release (e : RotatoryEncoder) (t : Nat)
    (h : (e.transitionStep t Level.LOW).currentState = SwitchState.RELEASED) :
    e.currentState = SwitchState.RELEASED := by
  unfold RotatoryEncoder.transitionStep at h
  split_ifs at h <;> simp_all

/-- A debounced release on a single update call requires a raw HIGH reading
that is unchanged from the previous call and stable beyond the debounce
window. -/
theorem update_into_RELEASED (e : RotatoryEncoder) (t : Nat) (r : Level)
    (h : (e.update t r).currentState = SwitchState.RELEASED)
    (hne : e.currentState ≠ SwitchState.RELEASED) :
    r = Level.HIGH ∧ r = e.lastReading ∧
      t - e.lastDebounceTime > e.debounceDelay := by
  have hch : (e.update t r).currentState ≠ e.currentState := by
    rw [h]; exact fun hc => hne hc.symm
  obtain ⟨hr, hg⟩ := update_change_stable e t r hch
  refine ⟨?_, hr, hg⟩
  cases r with
  | HIGH => rfl
  | LOW =>
      exfalso
      apply hne
      unfold RotatoryEncoder.update at h
      have := transitionStep_LOW_no_release _ t h
      rwa [debounced_currentState] at this

/-- From PRESSED, the escalation to HELD happens on an update call exactly
when the reading is LOW and unchanged, the debounce window has strictly
elapsed since the last raw change, and strictly more than holdTime has
elapsed since the recorded press start. -/
theorem update_PRESSED_to_HELD_iff (e : RotatoryEncoder) (t : Nat) (r : Level)
    (h : e.currentState = SwitchState.PRESSED) :
    (e.update t r).currentState = SwitchState.HELD ↔
      (r = Level.LOW ∧ r = e.lastReading ∧
       t - e.lastDebounceTime > e.debounceDelay ∧
       t - e.pressStartTime > e.holdTime) := by
  obtain ⟨pin, dd, hold, ps, cs, lr, ldt, pst⟩ := e
  simp only at h
  subst h
  cases r <;> cases lr <;>
    simp [RotatoryEncoder.update, RotatoryEncoder.debounced,
          RotatoryEncoder.transitionStep] <;>
    split_ifs <;> simp_all

/-- Closed form of wasPressed: the result is the press-edge test, and
previousState is overwritten with currentState in both branches. -/
theorem wasPressed_eq (e : RotatoryEncoder) :
    e.wasPressed =
      (decide (e.currentState = SwitchState.PRESSED ∧
               e.previousState ≠ SwitchState.PRESSED),
       { e with previousState := e.currentState }) := by
  unfold RotatoryEncoder.wasPressed
  split_ifs with h
  · obtain ⟨h1, h2⟩ := h
    simp [h1, h2]
  · simp [h]

/-- Closed form of wasReleased: same overwrite side effect. -/
theorem wasReleased_eq (e : RotatoryEncoder) :
    e.wasReleased =
      (decide (e.currentState = SwitchState.RELEASED ∧
               e.previousState ≠ SwitchState.RELEASED),
       { e with previousState := e.currentState }) := by
  unfold RotatoryEncoder.wasReleased
  split_ifs with h
  · obtain ⟨h1, h2⟩ := h
    simp [h1, h2]
  · simp [h]

/-- A second wasPressed call with no intervening update always returns
false. -/
theorem wasPressed_twice_false (e : RotatoryEncoder) :
    ((e.wasPressed).2.wasPressed).1 = false := by
  simp [wasPressed_eq]

/-- update commutes with overwriting previousState (update never reads
previousState). -/
theorem update_setPrev (e : RotatoryEncoder) (p : SwitchState) (t : Nat) (r : Level) :
    RotatoryEncoder.update { e with previousState := p } t r =
      { e.update t r with previousState := p } := by
  obtain ⟨pin, dd, hold, ps, cs, lr, ldt, pst⟩ := e
  simp only [RotatoryEncoder.update, RotatoryEncoder.debounced,
             RotatoryEncoder.transitionStep]
  split_ifs <;> rfl

/-- The press-transition signals do not depend on previousState. -/
theorem pressTransitionSignals_setPrev (e : RotatoryEncoder) (p : SwitchState)
    (inputs : List (Nat × Level)) :
    pressTransitionSignals { e with previousState := p } inputs =
      pressTransitionSignals e inputs := by
  induction inputs generalizing e with
  | nil => rfl
  | cons x rest ih =>
      obtain ⟨t, r⟩ := x
      simp only [pressTransitionSignals]
      rw [update_setPrev]
      rw [ih (e.update t r)]

/-- When exactly one wasPressed query follows each update (the discipline
of handleRotatoryEncoder), the query results are exactly the signals
marking the transitions of the debounced state into PRESSED. -/
theorem runCycle_eq_pressTransitionSignals (e : RotatoryEncoder)
    (inputs : List (Nat × Level)) (h : e.previousState = e.currentState) :
    runCycle e inputs = pressTransitionSignals e inputs := by
  induction inputs generalizing e with
  | nil => rfl
  | cons x rest ih =>
      obtain ⟨t, r⟩ := x
      simp only [runCycle, pressTransitionSignals, wasPressed_eq]
      rw [update_previousState, h]
      rw [ih _ rfl, pressTransitionSignals_setPrev]

/-- The final debounce-timer value over a trace is the time of the most
recent raw-level change in the trace. -/
theorem runUpdates_lastDebounceTime (e : RotatoryEncoder) (inputs : List (Nat × Level)) :
    (RotatoryEncoder.runUpdates e inputs).lastDebounceTime =
      lastChangeTime e.lastReading e.lastDebounceTime inputs := by
  induction inputs generalizing e with
  | nil => rfl
  | cons x rest ih =>
      obtain ⟨t, r⟩ := x
      simp only [RotatoryEncoder.runUpdates, lastChangeTime]
      rw [ih]
      rw [update_lastReading, update_lastDebounceTime]

/-- Starting away from RELEASED, if no debounced release ever happens then
no press transition happens either. -/
theorem pressSignals_count_zero (e : RotatoryEncoder) (inputs : List (Nat × Level))
    (hne : e.currentState ≠ SwitchState.RELEASED)
    (hnr : noReleaseTransition e inputs = true) :
    (pressTransitionSignals e inputs).count true = 0 := by
  induction inputs generalizing e with
  | nil => rfl
  | cons x rest ih =>
      obtain ⟨t, r⟩ := x
      simp only [noReleaseTransition, Bool.and_eq_true, Bool.not_eq_true',
                 decide_eq_false_iff_not] at hnr
      obtain ⟨h1, h2⟩ := hnr
      simp only [pressTransitionSignals]
      have hsig : decide ((e.update t r).currentState = SwitchState.PRESSED ∧
          e.currentState ≠ SwitchState.PRESSED) = false := by
        simp only [decide_eq_false_iff_not]
        rintro ⟨hp, hq⟩
        have hh : e.currentState = SwitchState.HELD := by
          cases hc : e.currentState <;> simp_all
        exact update_HELD_not_PRESSED e t r hh hp
      rw [hsig]
      have hne2 : (e.update t r).currentState ≠ SwitchState.RELEASED :=
        fun hc => h1 ⟨hc, hne⟩
      simp only [List.count_cons]
      rw [ih (e.update t r) hne2 h2]
      simp

/-- As long as no debounced release occurs, at most one press transition
can occur: rapid presses inside the debounce window are coalesced. -/
theorem pressSignals_count_le_one (e : RotatoryEncoder) (inputs : List (Nat × Level))
    (hnr : noReleaseTransition e inputs = true) :
    (pressTransitionSignals e inputs).count true ≤ 1 := by
  induction inputs generalizing e with
  | nil => simp [pressTransitionSignals]
  | cons x rest ih =>
      obtain ⟨t, r⟩ := x
      simp only [noReleaseTransition, Bool.and_eq_true, Bool.not_eq_true',
                 decide_eq_false_iff_not] at hnr
      obtain ⟨h1, h2⟩ := hnr
      simp only [pressTransitionSignals]
      by_cases hs : (e.update t r).currentState = SwitchState.PRESSED ∧
          e.currentState ≠ SwitchState.PRESSED
      · have hz := pressSignals_count_zero (e.update t r) rest
          (by rw [hs.1]; simp) h2
        simp [List.count_cons, hs, hz]
      · have hrest := ih (e.update t r) h2
        simp only [List.count_cons]
        simpa [hs] using hrest

/- ------------------------------------------------------------------ -/
/- Helper lemmas about the link mode controller.                       -/
/- ------------------------------------------------------------------ -/

theorem receiveFlagBody_fst (s : CtrlState) (env : RadioEnv) :
    (receiveFlagBody s env).1 =
      if s.receivedFlag then { s with receivedFlag := false } else s := by
  unfold receiveFlagBody; split_ifs <;> rfl

theorem sentFlagBody_fst (s : CtrlState) (env : RadioEnv) :
    (sentFlagBody s env).1 =
      if s.transmittedFlag then
        { s with
            transmittedFlag := false
            countReceivedPackets := s.countReceivedPackets + 1
            transmissionState := env.startTransmitNextResult }
      else s := by
  unfold sentFlagBody; split_ifs <;> rfl

theorem handleReceivedPacket_fst (s : CtrlState) (env : RadioEnv) :
    (handleReceivedPacket s env).1 =
      if s.modeChanged = true ∧ env.startReceiveResult ≠ RADIOLIB_ERR_NONE then none
      else some (receiveFlagBody s env).1 := by
  unfold handleReceivedPacket
  split_ifs <;> simp_all

theorem handleSentPacket_fst (s : CtrlState) (env : RadioEnv) :
    (handleSentPacket s env).1 =
      some (sentFlagBody
        (if s.modeChanged then
          { s with transmissionState := env.startTransmitFirstResult }
        else
          { s with transmissionState := RADIOLIB_ERR_NONE }) env).1 := by
  unfold handleSentPacket
  split_ifs <;> rfl

/-- The state after a non-halting handleReceivedPacket call: the mode, the
transmitted flag and the counter are untouched and receivedFlag ends up
clear. -/
theorem handleReceivedPacket_some_frame (s : CtrlState) (env : RadioEnv) (c : CtrlState)
    (h : (handleReceivedPacket s env).1 = some c) :
    c.currentMode = s.currentMode ∧ c.previousMode = s.previousMode ∧
    c.modeChanged = s.modeChanged ∧ c.transmittedFlag = s.transmittedFlag ∧
    c.receivedFlag = false ∧ c.transmissionState = s.transmissionState ∧
    c.countReceivedPackets = s.countReceivedPackets := by
  by_cases hc : s.modeChanged = true ∧ env.startReceiveResult ≠ RADIOLIB_ERR_NONE
  · rw [handleReceivedPacket_fst, if_pos hc] at h
    exact absurd h (by simp)
  · rw [handleReceivedPacket_fst, if_neg hc, receiveFlagBody_fst] at h
    have hc2 := Option.some_injective _ h
    subst hc2
    by_cases hf : s.receivedFlag = true <;> simp [hf]

/-- The state after a handleSentPacket call: the mode and receivedFlag are
untouched and transmittedFlag ends up clear. -/
theorem handleSentPacket_some_frame (s : CtrlState) (env : RadioEnv) (c : CtrlState)
    (h : (handleSentPacket s env).1 = some c) :
    c.currentMode = s.currentMode ∧ c.previousMode = s.previousMode ∧
    c.modeChanged = s.modeChanged ∧ c.receivedFlag = s.receivedFlag ∧
    c.transmittedFlag = false := by
  rw [handleSentPacket_fst] at h
  rw [sentFlagBody_fst] at h
  have hc2 := Option.some_injective _ h
  subst hc2
  by_cases hm : s.modeChanged = true <;>
    by_cases hf : s.transmittedFlag = true <;>
    simp [hm, hf]

theorem dispatchMode_some_frame (c : CtrlState) (env : RadioEnv) (c2 : CtrlState)
    (h : (dispatchMode c env).1 = some c2) :
    c2.currentMode = c.currentMode ∧ c2.modeChanged = c.modeChanged ∧
    (c2.currentMode = Mode.RECEIVE →
      c2.receivedFlag = false ∧ c2.transmittedFlag = c.transmittedFlag) ∧
    (c2.currentMode = Mode.TRANSMIT →
      c2.transmittedFlag = false ∧ c2.receivedFlag = c.receivedFlag) ∧
    (c2.receivedFlag = true → c.receivedFlag = true) ∧
    (c2.transmittedFlag = true → c.transmittedFlag = true) := by
  unfold dispatchMode at h
  split_ifs at h with hd
  · obtain ⟨h1, h2, h3, h4, h5, h6, h7⟩ := handleReceivedPacket_some_frame c env c2 h
    refine ⟨h1, h3, fun _ => ⟨h5, h4⟩, fun hmode => ?_, ?_, ?_⟩
    · rw [h1, hd] at hmode; exact absurd hmode (by simp)
    · intro hc; rw [h5] at hc; exact absurd hc (by simp)
    · intro hc; rwa [h4] at hc
  · obtain ⟨h1, h2, h3, h4, h5⟩ := handleSentPacket_some_frame c env c2 h
    have hmode : c.currentMode = Mode.TRANSMIT := by
      cases hm : c.currentMode
      · exact absurd hm hd
      · rfl
    refine ⟨h1, h3, fun hmr => ?_, fun _ => ⟨h5, h4⟩, ?_, ?_⟩
    · rw [h1, hmode] at hmr; exact absurd hmr (by simp)
    · intro hc; rwa [h4] at hc
    · intro hc; rw [h5] at hc; exact absurd hc (by simp)

theorem modeSwitchStep_currentMode (c : CtrlState) (b : Bool) :
    (modeSwitchStep c b).1.currentMode =
      if b then toggleMode c.currentMode else c.currentMode := by
  unfold modeSwitchStep; cases b <;> simp

theorem modeSwitchStep_frame (c : CtrlState) (b : Bool) :
    (modeSwitchStep c b).1.receivedFlag = c.receivedFlag ∧
    (modeSwitchStep c b).1.transmittedFlag = c.transmittedFlag ∧
    (modeSwitchStep c b).1.transmissionState = c.transmissionState ∧
    (modeSwitchStep c b).1.countReceivedPackets = c.countReceivedPackets ∧
    (modeSwitchStep c b).1.previousMode = c.previousMode := by
  unfold modeSwitchStep; cases b <;> simp

/-- Decomposition of a successful handleRotatoryEncoder iteration. -/
theorem handleRotatoryEncoder_some (s : SysState) (now : Nat) (r : Level) (env : RadioEnv)
    (s2 : SysState) (h : (handleRotatoryEncoder s now r env).1 = some s2) :
    ∃ c, s2 = { enc := ((s.enc.update now r).wasPressed).2, ctrl := c } ∧
      (dispatchMode (modeSwitchStep s.ctrl ((s.enc.update now r).wasPressed).1).1 env).1 =
        some c := by
  simp only [handleRotatoryEncoder] at h
  rw [Option.map_eq_some'] at h
  obtain ⟨c, hc, hs2⟩ := h
  exact ⟨c, hs2.symm, hc⟩

/-- The event trace of one handleRotatoryEncoder iteration. -/
theorem handleRotatoryEncoder_trace (s : SysState) (now : Nat) (r : Level) (env : RadioEnv) :
    (handleRotatoryEncoder s now r env).2 =
      (modeSwitchStep s.ctrl ((s.enc.update now r).wasPressed).1).2 ++
      (dispatchMode (modeSwitchStep s.ctrl ((s.enc.update now r).wasPressed).1).1 env).2 :=
  rfl

/-- When a pending packet is consumed and no fatal halt occurs, the readData
call appears in the handler trace. -/
theorem handleReceivedPacket_readData_mem (s : CtrlState) (env : RadioEnv)
    (hf : s.receivedFlag = true) (hs : (handleReceivedPacket s env).1 ≠ none) :
    Ev.callReadData env.readDataResult ∈ (handleReceivedPacket s env).2 := by
  by_cases hm : s.modeChanged = true
  · by_cases hok : env.startReceiveResult = RADIOLIB_ERR_NONE
    · unfold handleReceivedPacket
      simp [hm, hok, receiveFlagBody, hf]
    · exfalso
      apply hs
      rw [handleReceivedPacket_fst, if_pos ⟨hm, hok⟩]
  · unfold handleReceivedPacket
    simp [hm, receiveFlagBody, hf]

/-- When a finished transmission is consumed, the finishTransmit call
appears in the handler trace. -/
theorem handleSentPacket_finish_mem (s : CtrlState) (env : RadioEnv)
    (hf : s.transmittedFlag = true) :
    Ev.callFinishTransmit ∈ (handleSentPacket s env).2 := by
  unfold handleSentPacket
  by_cases hm : s.modeChanged = true <;> simp [hm, sentFlagBody, hf]

/- ------------------------------------------------------------------ -/
/- Claim theorems.                                                     -/
/- ------------------------------------------------------------------ -/

/-- C5 (confirmed): the debounced currentState changes on an update call
only when the raw reading is unchanged from the previous call and strictly
more than the debounce window has elapsed since the debounce timer was
last reset; any raw-level change resets the debounce timer to now (and
cannot itself change the state); and over any trace the debounce timer
always equals the time of the most recent raw-level change, so a state
change indeed requires the raw level to have remained unchanged for more
than (hence at least) the debounce window. -/
theorem c5_debounce_stability :
    (∀ (e : RotatoryEncoder) (t : Nat) (r : Level),
        r ≠ e.lastReading →
          ((e.update t r).lastDebounceTime = t ∧
           (e.update t r).currentState = e.currentState)) ∧
    (∀ (e : RotatoryEncoder) (t : Nat) (r : Level),
        (e.update t r).currentState ≠ e.currentState →
          (r = e.lastReading ∧ t - e.lastDebounceTime > e.debounceDelay)) ∧
    (∀ (e : RotatoryEncoder) (inputs : List (Nat × Level)),
        (RotatoryEncoder.runUpdates e inputs).lastDebounceTime =
          lastChangeTime e.lastReading e.lastDebounceTime inputs) :=
  ⟨update_of_reading_change, update_change_stable, runUpdates_lastDebounceTime⟩

/-- Witness for C5 at a concrete input: the first LOW reading resets the
debounce timer and leaves the state unchanged. -/
theorem c5_witness :
    (rotatoryEncoder.update 100 Level.LOW).lastDebounceTime = 100 ∧
    (rotatoryEncoder.update 100 Level.LOW).currentState =
      rotatoryEncoder.currentState :=
  c5_debounce_stability.1 rotatoryEncoder 100 Level.LOW (by decide)

/-- C6 counterexample: with press start recorded at 160 ms, the raw input
goes HIGH at 200 ms (a bounce shorter than the debounce window, i.e. the
switch is released raw-HIGH before the hold threshold elapses) and the
state nevertheless escalates to HELD at 1300 ms, so the raw input was not
continuously LOW since press start. -/
theorem c6_counterexample :
    (RotatoryEncoder.runUpdates rotatoryEncoder bounceWhilePressedInputs).currentState =
      SwitchState.HELD ∧
    (RotatoryEncoder.runUpdates rotatoryEncoder
        (bounceWhilePressedInputs.take 2)).currentState = SwitchState.PRESSED ∧
    (RotatoryEncoder.runUpdates rotatoryEncoder
        (bounceWhilePressedInputs.take 2)).pressStartTime = 160 ∧
    ((200 : Nat), Level.HIGH) ∈ bounceWhilePressedInputs := by
  decide

/-- C6 (amended): from PRESSED, the escalation to HELD happens on an update
call iff the reading is LOW, unchanged from the previous call, the
debounce window has strictly elapsed since the last raw change, and
strictly more than holdTime has elapsed since the recorded press start
(so a raw HIGH bounce shorter than the debounce window does not prevent
escalation - only a debounced release does); HELD is entered only from
PRESSED; and there is no direct HELD to PRESSED transition. -/
theorem c6_held_transition_characterization :
    (∀ (e : RotatoryEncoder) (t : Nat) (r : Level),
        e.currentState = SwitchState.PRESSED →
          ((e.update t r).currentState = SwitchState.HELD ↔
            (r = Level.LOW ∧ r = e.lastReading ∧
             t - e.lastDebounceTime > e.debounceDelay ∧
             t - e.pressStartTime > e.holdTime))) ∧
    (∀ (e : RotatoryEncoder) (t : Nat) (r : Level),
        (e.update t r).currentState = SwitchState.HELD →
          e.currentState = SwitchState.PRESSED ∨
          e.currentState = SwitchState.HELD) ∧
    (∀ (e : RotatoryEncoder) (t : Nat) (r : Level),
        e.currentState = SwitchState.HELD →
          (e.update t r).currentState ≠ SwitchState.PRESSED) :=
  ⟨update_PRESSED_to_HELD_iff, update_into_HELD, update_HELD_not_PRESSED⟩

/-- Witness for C6 at a concrete input: the escalation criterion evaluated
on a pressed encoder 1200 ms after press start. -/
theorem c6_witness :
    (aboutToPressEnc.update 1300 Level.LOW).currentState = SwitchState.HELD ↔
      (Level.LOW = Level.LOW ∧ Level.LOW = aboutToPressEnc.lastReading ∧
       1300 - aboutToPressEnc.lastDebounceTime > aboutToPressEnc.debounceDelay ∧
       1300 - aboutToPressEnc.pressStartTime > aboutToPressEnc.holdTime) :=
  c6_held_transition_characterization.1 aboutToPressEnc 1300 Level.LOW (by decide)

/-- C7 counterexample: a press, a debounced release and a second press with
no query in between give two RELEASED to PRESSED transitions, yet over the
whole call sequence wasPressed returns true on exactly one call - not one
call per transition. -/
theorem c7_counterexample :
    countPressedTransitions rotatoryEncoder doublePressActs = 2 ∧
    ((runActions rotatoryEncoder doublePressActs).2.count true) = 1 := by
  decide

/-- C7 (amended): every wasPressed and wasReleased call overwrites the
previously-recorded state with the current state regardless of outcome; an
immediately repeated wasPressed call returns false; when wasPressed is
called exactly once after every update (the discipline of the main loop),
its results are exactly the signals of the transitions of the debounced
state into PRESSED - one true per transition; and each such transition
comes from RELEASED.  Multiple transitions between two queries are
coalesced into at most one true. -/
theorem c7_wasPressed_characterization :
    (∀ e : RotatoryEncoder,
        (e.wasPressed).2.previousState = e.currentState ∧
        (e.wasPressed).2.currentState = e.currentState ∧
        (e.wasReleased).2.previousState = e.currentState) ∧
    (∀ e : RotatoryEncoder, ((e.wasPressed).2.wasPressed).1 = false) ∧
    (∀ (e : RotatoryEncoder) (inputs : List (Nat × Level)),
        e.previousState = e.currentState →
          runCycle e inputs = pressTransitionSignals e inputs) ∧
    (∀ (e : RotatoryEncoder) (t : Nat) (r : Level),
        (e.update t r).currentState = SwitchState.PRESSED →
        e.currentState ≠ SwitchState.PRESSED →
        e.currentState = SwitchState.RELEASED) := by
  refine ⟨?_, wasPressed_twice_false, runCycle_eq_pressTransitionSignals,
    update_into_PRESSED⟩
  intro e
  rw [wasPressed_eq, wasReleased_eq]
  exact ⟨rfl, rfl, rfl⟩

/-- Witness for C7 at a concrete input: two updates reaching PRESSED with a
query after each yield results [false, true]. -/
theorem c7_witness :
    runCycle rotatoryEncoder [(100, Level.LOW), (160, Level.LOW)] =
      pressTransitionSignals rotatoryEncoder [(100, Level.LOW), (160, Level.LOW)] :=
  c7_wasPressed_characterization.2.2.1 rotatoryEncoder
    [(100, Level.LOW), (160, Level.LOW)] (by decide)

/-- C8 (confirmed): one loop iteration toggles currentMode exactly when the
wasPressed edge fires on that iteration and leaves it unchanged otherwise
(never time-based), and the iteration performs exactly one update and one
wasPressed call on the encoder; toggling twice returns the original mode;
under the once-per-iteration query discipline at most one press edge (and
hence at most one toggle) can occur while no debounced release happens;
and a debounced release requires a raw HIGH reading stable beyond the
debounce window, so rapid presses inside the window cannot produce a
second toggle. -/
theorem c8_mode_toggle :
    (∀ (s : SysState) (now : Nat) (r : Level) (env : RadioEnv) (s2 : SysState),
        (handleRotatoryEncoder s now r env).1 = some s2 →
          (s2.ctrl.currentMode =
            (if ((s.enc.update now r).wasPressed).1 then
              toggleMode s.ctrl.currentMode
            else s.ctrl.currentMode) ∧
           s2.enc = ((s.enc.update now r).wasPressed).2)) ∧
    (∀ m : Mode, toggleMode (toggleMode m) = m) ∧
    (∀ (e : RotatoryEncoder) (inputs : List (Nat × Level)),
        e.previousState = e.currentState →
        noReleaseTransition e inputs = true →
          (runCycle e inputs).count true ≤ 1) ∧
    (∀ (e : RotatoryEncoder) (t : Nat) (r : Level),
        (e.update t r).currentState = SwitchState.RELEASED →
        e.currentState ≠ SwitchState.RELEASED →
          (r = Level.HIGH ∧ r = e.lastReading ∧
           t - e.lastDebounceTime > e.debounceDelay)) := by
  refine ⟨?_, ?_, ?_, update_into_RELEASED⟩
  · intro s now r env s2 h
    obtain ⟨c, hs2, hc⟩ := handleRotatoryEncoder_some s now r env s2 h
    subst hs2
    obtain ⟨h1, -⟩ := dispatchMode_some_frame _ env c hc
    refine ⟨?_, rfl⟩
    rw [show ({ enc := ((s.enc.update now r).wasPressed).2, ctrl := c } :
          SysState).ctrl = c from rfl, h1, modeSwitchStep_currentMode]
  · intro m; cases m <;> rfl
  · intro e inputs h1 h2
    rw [runCycle_eq_pressTransitionSignals e inputs h1]
    exact pressSignals_count_le_one e inputs h2

/-- Witness for C8 at a concrete input: a two-update press sequence with no
debounced release produces at most one press edge. -/
theorem c8_witness :
    (runCycle rotatoryEncoder [(100, Level.LOW), (160, Level.LOW)]).count true ≤ 1 :=
  c8_mode_toggle.2.2.1 rotatoryEncoder [(100, Level.LOW), (160, Level.LOW)]
    (by decide) (by decide)

/-- C1 counterexample: on a loop iteration where the mode toggle edge fires
(TRANSMIT to RECEIVE) while receivedFlag is pending, the dispatched handler
performs the RECEIVE entry action AND the steady-state flag-handling body
(clearing the flag and calling readData) in the same call - packet handling
is not deferred to a later iteration. -/
theorem c1_counterexample :
    (handleRotatoryEncoder toggleWithPendingRx 200 Level.LOW rxOkEnv).2 =
      [Ev.logSwitched Mode.RECEIVE, Ev.logListenStart, Ev.callStartReceive 0,
       Ev.logListenSuccess, Ev.clearReceivedFlag, Ev.callReadData 0,
       Ev.logReceivedPacket "hi" (-42) 3, Ev.callStartReceive 0] ∧
    Ev.callReadData 0 ∈
      (handleRotatoryEncoder toggleWithPendingRx 200 Level.LOW rxOkEnv).2 := by
  constructor <;> decide

/-- C1 (amended): on a mode-change iteration the handler performs the entry
action of the new mode first, and if the corresponding event flag is
already set it additionally runs the steady-state flag-handling body in
the same handler call, consuming the flag; flag handling is not deferred
to a later iteration. -/
theorem c1_entry_plus_pending_flag (s : CtrlState) (env : RadioEnv)
    (hm : s.modeChanged = true) :
    (s.receivedFlag = true → env.startReceiveResult = RADIOLIB_ERR_NONE →
      ∃ c, (handleReceivedPacket s env).1 = some c ∧ c.receivedFlag = false ∧
        Ev.logListenSuccess ∈ (handleReceivedPacket s env).2 ∧
        Ev.callReadData env.readDataResult ∈ (handleReceivedPacket s env).2) ∧
    (s.transmittedFlag = true →
      ∃ c, (handleSentPacket s env).1 = some c ∧ c.transmittedFlag = false ∧
        Ev.callStartTransmit "Hello World!" env.startTransmitFirstResult ∈
          (handleSentPacket s env).2 ∧
        Ev.callFinishTransmit ∈ (handleSentPacket s env).2) := by
  constructor
  · intro hf hok
    refine ⟨(receiveFlagBody s env).1, ?_, ?_, ?_, ?_⟩
    · rw [handleReceivedPacket_fst, if_neg (by simp [hok])]
    · rw [receiveFlagBody_fst, if_pos hf]
    · unfold handleReceivedPacket
      simp [hm, hok]
    · unfold handleReceivedPacket receiveFlagBody
      simp [hm, hok, hf]
  · intro hf
    refine ⟨_, handleSentPacket_fst s env, ?_, ?_, ?_⟩
    · rw [sentFlagBody_fst]
      simp [hm, hf]
    · unfold handleSentPacket
      simp [hm]
    · unfold handleSentPacket sentFlagBody
      simp [hm, hf]

/-- Witness for C1 (amended) at a concrete input. -/
theorem c1_witness :
    ∃ c, (handleReceivedPacket
        { initialCtrlState with modeChanged := true, receivedFlag := true }
        rxOkEnv).1 = some c ∧ c.receivedFlag = false ∧
      Ev.logListenSuccess ∈ (handleReceivedPacket
        { initialCtrlState with modeChanged := true, receivedFlag := true }
        rxOkEnv).2 ∧
      Ev.callReadData rxOkEnv.readDataResult ∈ (handleReceivedPacket
        { initialCtrlState with modeChanged := true, receivedFlag := true }
        rxOkEnv).2 :=
  (c1_entry_plus_pending_flag
    { initialCtrlState with modeChanged := true, receivedFlag := true }
    rxOkEnv (by decide)).1 (by decide) (by decide)

/-- C2 (code bug): line 200 of main.cpp resets transmissionState to
RADIOLIB_ERR_NONE at the top of every handleSentPacket call, so in steady
state the status recorded by the previous startTransmit (-1 here) is
clobbered before the completion flag is consumed: the handler logs
"Transmission finished!" and the failure is never logged. -/
theorem c2_status_reset_bug :
    txFailedPendingState.transmissionState = -1 ∧
    (handleSentPacket txFailedPendingState envOk).2 =
      [Ev.clearTransmittedFlag, Ev.logTxFinished, Ev.callFinishTransmit,
       Ev.delayMs 1000, Ev.logSendingAnother,
       Ev.callStartTransmit "Hello World! #5" 0] ∧
    Ev.logTxFail (-1) ∉ (handleSentPacket txFailedPendingState envOk).2 := by
  refine ⟨by decide, by decide, by decide⟩

/-- C3 counterexample: a successfully read packet followed by the
unconditional re-arm startReceive failing with code -2 produces a trace
containing a failed radio call but no failure log line at all. -/
theorem c3_counterexample :
    ((handleReceivedPacket rxPendingState rearmFailEnv).2.any
        Ev.isFailedRadioCall) = true ∧
    ((handleReceivedPacket rxPendingState rearmFailEnv).2.any
        Ev.isFailureLog) = false := by
  decide

/-- C3 (amended): failures of radio begin, of the startup startReceive, of
the RECEIVE-entry startReceive and of readData each produce a failure log
line; the result of the unconditional re-arm startReceive after consuming
a packet is discarded without logging. -/
theorem c3_failure_logging :
    (∀ (s : CtrlState) (env : RadioEnv),
        s.modeChanged = true → env.startReceiveResult ≠ RADIOLIB_ERR_NONE →
          Ev.logListenFail env.startReceiveResult ∈ (handleReceivedPacket s env).2) ∧
    (∀ (s : CtrlState) (env : RadioEnv),
        s.receivedFlag = true →
        ¬(s.modeChanged = true ∧ env.startReceiveResult ≠ RADIOLIB_ERR_NONE) →
        env.readDataResult ≠ RADIOLIB_ERR_NONE →
          ((env.readDataResult = RADIOLIB_ERR_CRC_MISMATCH →
              Ev.logCrcError ∈ (handleReceivedPacket s env).2) ∧
           (env.readDataResult ≠ RADIOLIB_ERR_CRC_MISMATCH →
              Ev.logReadFail env.readDataResult ∈ (handleReceivedPacket s env).2))) ∧
    (∀ b r : Int, b ≠ RADIOLIB_ERR_NONE → Ev.logInitFail b ∈ (setup b r).2) ∧
    (∀ b r : Int, b = RADIOLIB_ERR_NONE → r ≠ RADIOLIB_ERR_NONE →
        Ev.logListenFail r ∈ (setup b r).2) := by
  refine ⟨?_, ?_, ?_, ?_⟩
  · intro s env hm hsr
    unfold handleReceivedPacket
    simp [hm, hsr]
  · intro s env hf hnc hrd
    constructor
    · intro hcrc
      have hcn : RADIOLIB_ERR_CRC_MISMATCH ≠ RADIOLIB_ERR_NONE := by decide
      by_cases hm : s.modeChanged = true
      · have hok : env.startReceiveResult = RADIOLIB_ERR_NONE := by
          by_contra hx
          exact hnc ⟨hm, hx⟩
        unfold handleReceivedPacket receiveFlagBody
        simp [hm, hok, hf, hrd, hcrc, hcn]
      · unfold handleReceivedPacket receiveFlagBody
        simp [hm, hf, hrd, hcrc, hcn]
    · intro hncrc
      by_cases hm : s.modeChanged = true
      · have hok : env.startReceiveResult = RADIOLIB_ERR_NONE := by
          by_contra hx
          exact hnc ⟨hm, hx⟩
        unfold handleReceivedPacket receiveFlagBody
        simp [hm, hok, hf, hrd, hncrc]
      · unfold handleReceivedPacket receiveFlagBody
        simp [hm, hf, hrd, hncrc]
  · intro b r hb
    unfold setup
    simp [hb]
  · intro b r hb hr
    unfold setup
    simp [hb, hr]

/-- Witness for C3 (amended) at a concrete input: a failing mode-entry
startReceive is logged. -/
theorem c3_witness :
    Ev.logListenFail (-1) ∈
      (handleReceivedPacket { initialCtrlState with modeChanged := true }
        { envOk with startReceiveResult := -1 }).2 :=
  c3_failure_logging.1 { initialCtrlState with modeChanged := true }
    { envOk with startReceiveResult := -1 } (by decide) (by decide)

/-- C4 (confirmed): the program halts fatally (none) exactly when radio
begin fails or the startup startReceive fails, or when the RECEIVE-entry
startReceive fails on a mode-change iteration; handleSentPacket never
halts; per-packet failures (readData, re-arm, startTransmit codes) never
halt; the halting handler call emits nothing after the failure log; and
once an iteration halts, the loop runs no further iteration and emits no
further event (in particular no further radio call). -/
theorem c4_fatal_halt :
    (∀ b r : Int, (setup b r).1 = none ↔
        (b ≠ RADIOLIB_ERR_NONE ∨ r ≠ RADIOLIB_ERR_NONE)) ∧
    (∀ (s : CtrlState) (env : RadioEnv),
        (handleReceivedPacket s env).1 = none ↔
          (s.modeChanged = true ∧ env.startReceiveResult ≠ RADIOLIB_ERR_NONE)) ∧
    (∀ (s : CtrlState) (env : RadioEnv), (handleSentPacket s env).1 ≠ none) ∧
    (∀ (s : CtrlState) (env : RadioEnv),
        s.modeChanged = true → env.startReceiveResult ≠ RADIOLIB_ERR_NONE →
          handleReceivedPacket s env =
            (none, [Ev.logListenStart, Ev.callStartReceive env.startReceiveResult,
                    Ev.logListenFail env.startReceiveResult])) ∧
    (∀ (s : SysState) (i : IterInput) (rest : List IterInput) (tr : List Ev),
        handleRotatoryEncoder s i.now i.reading i.env = (none, tr) →
          loopRun s (i :: rest) = (none, tr)) := by
  refine ⟨?_, ?_, ?_, ?_, ?_⟩
  · intro b r
    unfold setup
    split_ifs with h1 h2 <;> simp_all
  · intro s env
    rw [handleReceivedPacket_fst]
    split_ifs with h <;> simp [h]
  · intro s env
    rw [handleSentPacket_fst]
    simp
  · intro s env hm hsr
    unfold handleReceivedPacket
    rw [if_pos hm, if_neg hsr]
  · intro s i rest tr h
    simp only [loopRun]
    rw [h]

/-- Witness for C4 at a concrete input: a failing RECEIVE-entry
startReceive on a toggle iteration halts the whole run; the scheduled
second iteration never executes. -/
theorem c4_witness :
    loopRun toggleWithPendingRx
        [⟨200, Level.LOW, { envOk with startReceiveResult := -1 }⟩,
         ⟨300, Level.LOW, envOk⟩] =
      (none, [Ev.logSwitched Mode.RECEIVE, Ev.logListenStart,
              Ev.callStartReceive (-1), Ev.logListenFail (-1)]) :=
  c4_fatal_halt.2.2.2.2 toggleWithPendingRx
    ⟨200, Level.LOW, { envOk with startReceiveResult := -1 }⟩
    [⟨300, Level.LOW, envOk⟩]
    [Ev.logSwitched Mode.RECEIVE, Ev.logListenStart,
     Ev.callStartReceive (-1), Ev.logListenFail (-1)]
    (by decide)

/-- C9 (confirmed): receivedFlag and transmittedFlag become true only
through the respective interrupt event (whose whole effect is the
callback setting its flag, with no other action) and become false only
through a main-loop iteration; and when a handler observes a flag true it
clears the flag before any of the associated packet I/O: the clear event
precedes every readData call (receive side), and precedes the
finishTransmit call (transmit side). -/
theorem c9_flag_discipline :
    (∀ (ev : SysEvent) (s s2 : SysState) (tr : List Ev),
        sysStep ev s = (some s2, tr) →
          ((s2.ctrl.receivedFlag = true →
              s.ctrl.receivedFlag = true ∨ ev = SysEvent.irqReceived) ∧
           (s2.ctrl.transmittedFlag = true →
              s.ctrl.transmittedFlag = true ∨ ev = SysEvent.irqSent) ∧
           (s2.ctrl.receivedFlag = false →
              s.ctrl.receivedFlag = false ∨
                ∃ t r env, ev = SysEvent.loopIter t r env) ∧
           (s2.ctrl.transmittedFlag = false →
              s.ctrl.transmittedFlag = false ∨
                ∃ t r env, ev = SysEvent.loopIter t r env))) ∧
    (∀ s : SysState,
        sysStep SysEvent.irqReceived s =
          (some { s with ctrl := setReceiveFlag s.ctrl }, []) ∧
        sysStep SysEvent.irqSent s =
          (some { s with ctrl := setSentFlag s.ctrl }, [])) ∧
    (∀ (s : CtrlState) (env : RadioEnv),
        s.receivedFlag = true →
        (s.modeChanged = true → env.startReceiveResult = RADIOLIB_ERR_NONE) →
          ∃ pre post,
            (handleReceivedPacket s env).2 = pre ++ Ev.clearReceivedFlag :: post ∧
            ∀ cd : Int, Ev.callReadData cd ∉ pre) ∧
    (∀ (s : CtrlState) (env : RadioEnv),
        s.transmittedFlag = true →
          ∃ pre post,
            (handleSentPacket s env).2 = pre ++ Ev.clearTransmittedFlag :: post ∧
            Ev.callFinishTransmit ∉ pre ∧ ∀ cd : Int, Ev.callReadData cd ∉ pre) := by
  refine ⟨?_, fun s => ⟨rfl, rfl⟩, ?_, ?_⟩
  · intro ev s s2 tr h
    cases ev with
    | irqReceived =>
        simp only [sysStep, Prod.mk.injEq] at h
        obtain ⟨h1, -⟩ := h
        have hs2 := Option.some_injective _ h1
        subst hs2
        refine ⟨fun _ => Or.inr rfl, fun ht => Or.inl ?_, fun hc => ?_, fun ht => Or.inl ?_⟩
        · simpa [setReceiveFlag] using ht
        · simp [setReceiveFlag] at hc
        · simpa [setReceiveFlag] using ht
    | irqSent =>
        simp only [sysStep, Prod.mk.injEq] at h
        obtain ⟨h1, -⟩ := h
        have hs2 := Option.some_injective _ h1
        subst hs2
        refine ⟨fun hr => Or.inl ?_, fun _ => Or.inr rfl, fun hr => Or.inl ?_, fun hc => ?_⟩
        · simpa [setSentFlag] using hr
        · simpa [setSentFlag] using hr
        · simp [setSentFlag] at hc
    | loopIter t r env =>
        have h0 : handleRotatoryEncoder s t r env = (some s2, tr) := h
        have h1 : (handleRotatoryEncoder s t r env).1 = some s2 := by rw [h0]
        obtain ⟨c, hs2, hc⟩ := handleRotatoryEncoder_some s t r env s2 h1
        subst hs2
        obtain ⟨-, -, -, -, hup1, hup2⟩ := dispatchMode_some_frame _ env c hc
        obtain ⟨hF1, hF2, -, -, -⟩ :=
          modeSwitchStep_frame s.ctrl ((s.enc.update t r).wasPressed).1
        refine ⟨fun hr => Or.inl ?_, fun ht => Or.inl ?_,
          fun _ => Or.inr ⟨t, r, env, rfl⟩, fun _ => Or.inr ⟨t, r, env, rfl⟩⟩
        · rw [← hF1]; exact hup1 hr
        · rw [← hF2]; exact hup2 ht
  · intro s env hf himp
    by_cases hm : s.modeChanged = true
    · have hok := himp hm
      refine ⟨[Ev.logListenStart, Ev.callStartReceive env.startReceiveResult,
          Ev.logListenSuccess],
        Ev.callReadData env.readDataResult ::
          ((if env.readDataResult = RADIOLIB_ERR_NONE then
              [Ev.logReceivedPacket env.readDataStr env.rssi env.lqi]
            else if env.readDataResult = RADIOLIB_ERR_CRC_MISMATCH then
              [Ev.logCrcError]
            else
              [Ev.logReadFail env.readDataResult]) ++
           [Ev.callStartReceive env.rearmResult]), ?_, ?_⟩
      · unfold handleReceivedPacket receiveFlagBody
        simp [hm, hok, hf]
      · intro cd
        simp
    · refine ⟨[],
        Ev.callReadData env.readDataResult ::
          ((if env.readDataResult = RADIOLIB_ERR_NONE then
              [Ev.logReceivedPacket env.readDataStr env.rssi env.lqi]
            else if env.readDataResult = RADIOLIB_ERR_CRC_MISMATCH then
              [Ev.logCrcError]
            else
              [Ev.logReadFail env.readDataResult]) ++
           [Ev.callStartReceive env.rearmResult]), ?_, ?_⟩
      · unfold handleReceivedPacket receiveFlagBody
        simp [hm, hf]
      · intro cd
        simp
  · intro s env hf
    by_cases hm : s.modeChanged = true
    · refine ⟨[Ev.logSendingFirst,
          Ev.callStartTransmit "Hello World!" env.startTransmitFirstResult],
        ((if env.startTransmitFirstResult = RADIOLIB_ERR_NONE then
            [Ev.logTxFinished]
          else
            [Ev.logTxFail env.startTransmitFirstResult]) ++
         [Ev.callFinishTransmit, Ev.delayMs 1000, Ev.logSendingAnother,
          Ev.callStartTransmit ("Hello World! #" ++ toString s.countReceivedPackets)
            env.startTransmitNextResult]), ?_, ?_, ?_⟩
      · unfold handleSentPacket sentFlagBody
        simp [hm, hf]
      · simp
      · intro cd
        simp
    · refine ⟨[],
        ([Ev.logTxFinished] ++
         [Ev.callFinishTransmit, Ev.delayMs 1000, Ev.logSendingAnother,
          Ev.callStartTransmit ("Hello World! #" ++ toString s.countReceivedPackets)
            env.startTransmitNextResult]), ?_, ?_, ?_⟩
      · unfold handleSentPacket sentFlagBody
        simp [hm, hf, RADIOLIB_ERR_NONE]
      · simp
      · intro cd
        simp

/-- Witness for C9 at a concrete input: consuming a pending packet in
steady state clears the flag before the readData call. -/
theorem c9_witness :
    ∃ pre post,
      (handleReceivedPacket rxPendingState rxOkEnv).2 =
        pre ++ Ev.clearReceivedFlag :: post ∧
      ∀ cd : Int, Ev.callReadData cd ∉ pre :=
  c9_flag_discipline.2.2.1 rxPendingState rxOkEnv (by decide)
    (fun hm => absurd hm (by decide))

/-- C10 (confirmed): the mode-switch block mutates only currentMode and
modeChanged - both event flags, the recorded status and the counter are
untouched - so flags persist across any number of toggles; and on any
non-halting iteration whose (possibly just entered) mode matches a pending
flag, that flag is consumed by the dispatched handler on that very
iteration (readData is called for a pending receivedFlag in RECEIVE,
finishTransmit for a pending transmittedFlag in TRANSMIT), while the flag
of the other mode is left unchanged. -/
theorem c10_toggle_preserves_flags :
    (∀ (c : CtrlState) (b : Bool),
        (modeSwitchStep c b).1.receivedFlag = c.receivedFlag ∧
        (modeSwitchStep c b).1.transmittedFlag = c.transmittedFlag ∧
        (modeSwitchStep c b).1.transmissionState = c.transmissionState ∧
        (modeSwitchStep c b).1.countReceivedPackets = c.countReceivedPackets) ∧
    (∀ (c : CtrlState) (bs : List Bool),
        (bs.foldl (fun st b => (modeSwitchStep st b).1) c).receivedFlag =
          c.receivedFlag ∧
        (bs.foldl (fun st b => (modeSwitchStep st b).1) c).transmittedFlag =
          c.transmittedFlag) ∧
    (∀ (s : SysState) (now : Nat) (r : Level) (env : RadioEnv) (s2 : SysState),
        (handleRotatoryEncoder s now r env).1 = some s2 →
          ((s2.ctrl.currentMode = Mode.RECEIVE →
              s2.ctrl.receivedFlag = false ∧
              s2.ctrl.transmittedFlag = s.ctrl.transmittedFlag ∧
              (s.ctrl.receivedFlag = true →
                Ev.callReadData env.readDataResult ∈
                  (handleRotatoryEncoder s now r env).2)) ∧
           (s2.ctrl.currentMode = Mode.TRANSMIT →
              s2.ctrl.transmittedFlag = false ∧
              s2.ctrl.receivedFlag = s.ctrl.receivedFlag ∧
              (s.ctrl.transmittedFlag = true →
                Ev.callFinishTransmit ∈
                  (handleRotatoryEncoder s now r env).2)))) := by
  refine ⟨?_, ?_, ?_⟩
  · intro c b
    obtain ⟨f1, f2, f3, f4, -⟩ := modeSwitchStep_frame c b
    exact ⟨f1, f2, f3, f4⟩
  · intro c bs
    induction bs generalizing c with
    | nil => exact ⟨rfl, rfl⟩
    | cons b rest ih =>
        simp only [List.foldl_cons]
        obtain ⟨ih1, ih2⟩ := ih (modeSwitchStep c b).1
        obtain ⟨f1, f2, -, -, -⟩ := modeSwitchStep_frame c b
        exact ⟨ih1.trans f1, ih2.trans f2⟩
  · intro s now r env s2 h
    obtain ⟨c, hs2, hc⟩ := handleRotatoryEncoder_some s now r env s2 h
    subst hs2
    obtain ⟨hm1, -, hR, hT, -, -⟩ := dispatchMode_some_frame _ env c hc
    obtain ⟨hF1, hF2, -, -, -⟩ :=
      modeSwitchStep_frame s.ctrl ((s.enc.update now r).wasPressed).1
    constructor
    · intro hmr
      have hswm : (modeSwitchStep s.ctrl
          ((s.enc.update now r).wasPressed).1).1.currentMode = Mode.RECEIVE := by
        rw [← hm1]; exact hmr
      refine ⟨(hR hmr).1, (hR hmr).2.trans hF2, ?_⟩
      intro hflag
      rw [handleRotatoryEncoder_trace]
      apply List.mem_append_right
      unfold dispatchMode
      rw [if_pos hswm]
      apply handleReceivedPacket_readData_mem
      · rw [hF1]; exact hflag
      · intro hnone
        unfold dispatchMode at hc
        rw [if_pos hswm] at hc
        rw [hnone] at hc
        exact Option.noConfusion hc
    · intro hmt
      have hswm : (modeSwitchStep s.ctrl
          ((s.enc.update now r).wasPressed).1).1.currentMode = Mode.TRANSMIT := by
        rw [← hm1]; exact hmt
      refine ⟨(hT hmt).1, (hT hmt).2.trans hF1, ?_⟩
      intro hflag
      rw [handleRotatoryEncoder_trace]
      apply List.mem_append_right
      unfold dispatchMode
      rw [if_neg (by simp [hswm])]
      apply handleSentPacket_finish_mem
      rw [hF2]; exact hflag

/-- Witness for C10 at a concrete input: the toggle into RECEIVE leaves the
pending receivedFlag intact and the handler consumes it on the mode-entry
iteration itself. -/
theorem c10_witness :
    Ev.callReadData rxOkEnv.readDataResult ∈
      (handleRotatoryEncoder toggleWithPendingRx 200 Level.LOW rxOkEnv).2 :=
  ((c10_toggle_preserves_flags.2.2 toggleWithPendingRx 200 Level.LOW rxOkEnv
      { enc := { aboutToPressEnc with previousState := SwitchState.PRESSED }
        ctrl := { initialCtrlState with modeChanged := true } }
      (by decide)).1 (by decide)).2.2 (by decide)

end WalkieTalkie
